import Mathlib

/-!
Shallow embedding of the DD5KA panel client (`src/panel/static/js/app.js`,
latest revision) and proofs of the behavioural claims about it.

The script is browser-resident and single-threaded; every event handler and
timer callback runs to completion atomically.  We embed each handler as a pure
state transformer, timers as explicitly scheduled fire times, and the network
as explicit response values fed to the handlers.  The DOM elements the script
touches are assumed present (the claims concern the panel page, where the
markup contains them); `getElementById` null-checks on those elements are
therefore the taken branch.  `fetch`/`response.json()` failures are modelled as
`Except.error`.
-/

/-- JS truthiness of `v || d` for an optional string: `undefined`, `null` and
the empty string are falsy. -/
def jsOrElse (v : Option String) (d : String) : String :=
  match v with
  | none => d
  | some s => if s == "" then d else s

/-- JS template interpolation of a possibly-undefined string:
a missing value prints as the literal text `undefined`. -/
def jsInterp (v : Option String) : String :=
  v.getD "undefined"

/-- A parsed JSON control-API body: at least an `ok` boolean and optionally an
`error` string (`/api/detector/...`, `/api/led/test`, `/api/detector/restart`). -/
structure JsonResult where
  ok : Bool
  error : Option String
deriving DecidableEq, Repr

/-- A transient toast notification, as shown by `showToast(message, type)`. -/
inductive Toast
  | success (msg : String)
  | error (msg : String)
  | info (msg : String)
deriving DecidableEq, Repr

/-! ## PanelController: stream lifecycle (app.js lines 35-113, 355-382)

`StreamState` mirrors the controller fields `firstFrameOk`,
`isFallbackVisible`, `fallbackTimer`, `lastReconnectAt`, plus the DOM bits the
handlers mutate: the `hidden` class of `#overlay-fallback`, the `src` of
`#overlay`, the pending (uncancellable) 200 ms hide-completion timeouts of
`hideFallback`, and the pending 800 ms reconnects scheduled by the `error`
handler.  Times are `Int` milliseconds (`Date.now()`). -/
structure StreamState where
  firstFrameOk : Bool
  isFallbackVisible : Bool
  /-- whether `#overlay-fallback` currently has the `hidden` class -/
  fallbackDomHidden : Bool
  /-- scheduled fire time of the current watchdog timer, if armed -/
  fallbackTimer : Option Int
  /-- scheduled fire times of the anonymous 200 ms timeouts in `hideFallback` -/
  hideTimers : List Int
  lastReconnectAt : Int
  /-- the `src` attribute of the `#overlay` image -/
  overlaySrc : String
  /-- scheduled fire times of the 800 ms reconnects from the stream `error` handler -/
  pendingReconnects : List Int
deriving DecidableEq, Repr

/-- Constructor state: `firstFrameOk = false`, `isFallbackVisible = false`,
`fallbackTimer = null`, `lastReconnectAt = 0`; the fallback markup starts with
the `hidden` class and the image has no source yet. -/
def initialStreamState : StreamState :=
  { firstFrameOk := false
    isFallbackVisible := false
    fallbackDomHidden := true
    fallbackTimer := none
    hideTimers := []
    lastReconnectAt := 0
    overlaySrc := ""
    pendingReconnects := [] }

/-- `showFallback` (lines 61-68): no-op when already visible, else remove the
`hidden` class and set `isFallbackVisible`. -/
def showFallback (s : StreamState) : StreamState :=
  if s.isFallbackVisible then s
  else { s with fallbackDomHidden := false, isFallbackVisible := true }

/-- `hideFallback` (lines 70-92), invoked at time `t`: no-op when not visible;
else cancel the watchdog, start the opacity fade and schedule the anonymous
completion timeout for `t + 200` (it adds the `hidden` class and clears
`isFallbackVisible` when it fires). -/
def hideFallback (t : Int) (s : StreamState) : StreamState :=
  if s.isFallbackVisible then
    { s with fallbackTimer := none, hideTimers := s.hideTimers ++ [t + 200] }
  else s

/-- The anonymous `setTimeout` body inside `hideFallback` (lines 86-91) firing
at time `t`: adds the `hidden` class and resets `isFallbackVisible`. -/
def hideFallbackDone (t : Int) (s : StreamState) : StreamState :=
  if s.hideTimers.contains t then
    { s with hideTimers := s.hideTimers.erase t,
             fallbackDomHidden := true, isFallbackVisible := false }
  else s

/-- `reconnectStream` (lines 94-113) invoked at `Date.now() = t`: throttled to
once per 5000 ms measured from `lastReconnectAt`; when accepted it records the
time, resets `firstFrameOk`, sets a cache-busted source and (re)arms the
1200 ms watchdog. -/
def reconnectStream (t : Int) (s : StreamState) : StreamState :=
  if t - s.lastReconnectAt < 5000 then s
  else
    { s with lastReconnectAt := t
             firstFrameOk := false
             overlaySrc := "/overlay.mjpg?t=" ++ toString t
             fallbackTimer := some (t + 1200) }

/-- The watchdog callback (lines 110-112) firing at time `t` (only a still-armed
timer fires; `clearTimeout` cancels it): if no first frame arrived, show the
fallback. -/
def watchdogFire (t : Int) (s : StreamState) : StreamState :=
  if s.fallbackTimer = some t then
    if s.firstFrameOk then { s with fallbackTimer := none }
    else showFallback { s with fallbackTimer := none }
  else s

/-- The overlay `load` handler (lines 50-54) at time `t`: latch `firstFrameOk`
and hide the fallback. -/
def onLoad (t : Int) (s : StreamState) : StreamState :=
  hideFallback t { s with firstFrameOk := true }

/-- The overlay `error` handler (lines 42-47) at time `t`: cancel the watchdog,
show the fallback immediately, and schedule a reconnect attempt for `t + 800`. -/
def onError (t : Int) (s : StreamState) : StreamState :=
  let s1 := showFallback { s with fallbackTimer := none }
  { s1 with pendingReconnects := s1.pendingReconnects ++ [t + 800] }

/-- The 800 ms `setTimeout(() => this.reconnectStream(), 800)` from the error
handler firing at time `t`. -/
def errReconnectFire (t : Int) (s : StreamState) : StreamState :=
  if s.pendingReconnects.contains t then
    reconnectStream t { s with pendingReconnects := s.pendingReconnects.erase t }
  else s

/-- `showView` (lines 355-382) at time `t`: for the stream view, reconnect and
hide any fallback; for every other view, clear the image source.  (The
`hidden-view` class shuffling on the three sections is pure section visibility
and is not tracked here.) -/
def showView (t : Int) (view : String) (s : StreamState) : StreamState :=
  if view == "stream" then hideFallback t (reconnectStream t s)
  else { s with overlaySrc := "" }

/-- The event alphabet of the stream lifecycle: each constructor is one handler
or timer callback of `PanelController`; a trace pairs each event with the
`Date.now()` value at which the handler runs. -/
inductive StreamEvent
  | reconnect
  | loadEvt
  | errorEvt
  | watchdog
  | hideDone
  | errReconnect
  | view (v : String)
deriving DecidableEq, Repr

/-- Dispatch one timestamped event to its handler. -/
def stepS (t : Int) (e : StreamEvent) (s : StreamState) : StreamState :=
  match e with
  | .reconnect => reconnectStream t s
  | .loadEvt => onLoad t s
  | .errorEvt => onError t s
  | .watchdog => watchdogFire t s
  | .hideDone => hideFallbackDone t s
  | .errReconnect => errReconnectFire t s
  | .view v => showView t v s

/-- The throttle guard of `reconnectStream` passes at time `t`. -/
def reconnectAccepted (t : Int) (s : StreamState) : Bool :=
  decide (5000 ≤ t - s.lastReconnectAt)

/-- Whether processing event `e` at time `t` in state `s` performs an accepted
reconnect (one that sets the source, resets `firstFrameOk` and arms the
watchdog). -/
def isAcceptedReconnect (t : Int) (e : StreamEvent) (s : StreamState) : Bool :=
  match e with
  | .reconnect => reconnectAccepted t s
  | .errReconnect => s.pendingReconnects.contains t && reconnectAccepted t s
  | .view v => v == "stream" && reconnectAccepted t s
  | _ => false

/-- The times of the accepted reconnects along a trace. -/
def acceptedTimes : List (Int × StreamEvent) → StreamState → List Int
  | [], _ => []
  | (t, e) :: rest, s =>
    if isAcceptedReconnect t e s then t :: acceptedTimes rest (stepS t e s)
    else acceptedTimes rest (stepS t e s)

/-! ## PanelController: control-action lock (lines 115-194) -/

/-- The four mutating control actions sharing the `isRequestInProgress` lock. -/
inductive PanelAction
  | start
  | stop
  | restart
  | ledTest
deriving DecidableEq, Repr

/-- The POST endpoint each action hits. -/
def actionEndpoint : PanelAction → String
  | .start => "/api/detector/start"
  | .stop => "/api/detector/stop"
  | .restart => "/api/detector/restart"
  | .ledTest => "/api/led/test"

/-- The lock plus the number of control POSTs currently in flight. -/
structure LockState where
  isRequestInProgress : Bool
  postsInFlight : Nat
deriving DecidableEq, Repr

/-- Events touching the lock: a click invokes `controlDetector(action)` or
`testLED()`; `settle` is the awaited request settling (resolve, reject or
abort), upon which the `finally` block releases the lock. -/
inductive LockEvent
  | click (a : PanelAction)
  | settle
deriving DecidableEq, Repr

/-- The synchronous prefix of `controlDetector`/`testLED` (lines 115-118 and
156-159) and the `finally` release (lines 148-153, 188-193): a click with the
lock held returns at once, issuing nothing; otherwise the lock is taken and
the POST issued (returned as `some endpoint`).  `settle` releases the lock. -/
def lockStep : LockEvent → LockState → LockState × Option String
  | .click a, s =>
    if s.isRequestInProgress then (s, none)
    else ({ isRequestInProgress := true, postsInFlight := s.postsInFlight + 1 },
          some (actionEndpoint a))
  | .settle, s =>
    if s.postsInFlight = 0 then (s, none)
    else ({ isRequestInProgress := false, postsInFlight := s.postsInFlight - 1 }, none)

/-- Run a sequence of clicks/settlements. -/
def lockRun : List LockEvent → LockState → LockState
  | [], s => s
  | e :: rest, s => lockRun rest (lockStep e s).fst

/-- Constructor state: `isRequestInProgress = false`, nothing in flight. -/
def lockInit : LockState :=
  { isRequestInProgress := false, postsInFlight := 0 }

/-! ## PanelController: one control action body (lines 115-154, 286-301) -/

/-- How the awaited `fetchWithTimeout` + `response.json()` of a control action
settles, before the abort timer is taken into account. -/
inductive NetResult
  | resolvedJson (r : JsonResult)
  | resolvedBadJson (msg : String)
  | netError (msg : String)
deriving DecidableEq, Repr

/-- What the `try` block observes. -/
inductive CtrlOutcome
  | jsonResult (r : JsonResult)
  | abortError
  | otherError (msg : String)
deriving DecidableEq, Repr

/-- `fetchWithTimeout` (lines 286-301): an abort timer fires at `timeoutMs`;
a request still unsettled then rejects with `AbortError`.  A resolved body
whose `json()` parse throws, or a rejected fetch, surfaces as a non-abort
error (its `name` is not `AbortError`). -/
def fetchWithTimeout (timeoutMs durationMs : Int) (net : NetResult) : CtrlOutcome :=
  if timeoutMs < durationMs then .abortError
  else
    match net with
    | .resolvedJson r => .jsonResult r
    | .resolvedBadJson msg => .otherError msg
    | .netError msg => .otherError msg

/-- The UI state a control action manipulates: its button, the lock, the last
toast and the pending 500 ms status refresh. -/
structure CtrlUiState where
  buttonText : String
  buttonDisabled : Bool
  btnLoading : Bool
  isRequestInProgress : Bool
  toast : Option Toast
  statusRefreshDelayMs : Option Int
deriving DecidableEq, Repr

/-- The `STARTED`/`STOPPED`/`RESTARTED` text of line 135. -/
def actionText (action : String) : String :=
  if action == "start" then "STARTED"
  else if action == "stop" then "STOPPED"
  else "RESTARTED"

/-- `controlDetector(action)` (lines 115-154) with the settled outcome of its
single awaited request: guard on the lock, take the lock, remember the label,
relabel and disable the button, branch on the outcome, and in `finally`
restore label, enablement and lock. -/
def controlDetector (action : String) (outcome : CtrlOutcome) (st : CtrlUiState) :
    CtrlUiState :=
  if st.isRequestInProgress then st
  else
    let st1 := { st with isRequestInProgress := true }
    let originalText := st1.buttonText
    let st2 := { st1 with buttonText := "...", buttonDisabled := true, btnLoading := true }
    let st3 :=
      match outcome with
      | .jsonResult r =>
        if r.ok then
          { st2 with toast := some (.success ("Detector " ++ actionText action))
                     statusRefreshDelayMs := some 500 }
        else
          { st2 with toast := some (.error ("Error: " ++ jsOrElse r.error "Unknown error")) }
      | .abortError =>
        { st2 with toast := some (.error "Timeout: Request took too long") }
      | .otherError msg =>
        { st2 with toast := some (.error ("Network error: " ++ msg)) }
    { st3 with buttonText := originalText, buttonDisabled := false,
               btnLoading := false, isRequestInProgress := false }

/-! ## PanelController: status polling (lines 196-247) -/

/-- `/api/detector/status` body. -/
structure DetectorStatus where
  active_state : String
deriving DecidableEq, Repr

/-- `/api/health` body. -/
structure HealthStatus where
  camera : String
deriving DecidableEq, Repr

/-- `/api/led/status` body. -/
structure LedStatus where
  ok : Bool
deriving DecidableEq, Repr

/-- `/api/nm/status` body. -/
structure NmStatus where
  mode : Option String
  ifname : Option String
  ssid : Option String
  connected : Bool
deriving DecidableEq, Repr

/-- The DOM pieces `updateStatus` writes: the `className` of the four status
dots and the four network text fields. -/
structure StatusDom where
  detectorDot : String
  cameraDot : String
  ledDot : String
  setkometDot : String
  nmMode : String
  nmIfname : String
  nmSsid : String
  nmConnected : String
deriving DecidableEq, Repr

/-- `updateStatusDot(elementId, isOk)` (lines 235-240): set the dot's class to
`status-dot ok` or `status-dot bad`; an unknown id finds no element and is a
no-op. -/
def updateStatusDot (elementId : String) (isOk : Bool) (d : StatusDom) : StatusDom :=
  let cls := "status-dot " ++ (if isOk then "ok" else "bad")
  if elementId == "detector-status" then { d with detectorDot := cls }
  else if elementId == "camera-status" then { d with cameraDot := cls }
  else if elementId == "led-status" then { d with ledDot := cls }
  else if elementId == "setkomet-status" then { d with setkometDot := cls }
  else d

/-- `updateNetworkStatus(status)` (lines 242-247). -/
def updateNetworkStatus (status : NmStatus) (d : StatusDom) : StatusDom :=
  { d with nmMode := jsOrElse status.mode "—"
           nmIfname := jsOrElse status.ifname "—"
           nmSsid := jsOrElse status.ssid "—"
           nmConnected := if status.connected then "Да" else "Нет" }

/-- `updateStatus` (lines 196-223): the four fetches are awaited sequentially
inside a single `try`; a rejected fetch or failed parse jumps to the `catch`
(which only logs), so later fetches are not issued in that tick.  Each
argument is how the corresponding fetch+parse settles; the second component of
the result lists the fetches actually issued, in order. -/
def updateStatus (d : StatusDom)
    (detR : Except Unit DetectorStatus) (healthR : Except Unit HealthStatus)
    (ledR : Except Unit LedStatus) (nmR : Except Unit NmStatus) :
    StatusDom × List String :=
  match detR with
  | .error _ => (d, ["/api/detector/status"])
  | .ok det =>
    let d1 := updateStatusDot "detector-status" (det.active_state == "active") d
    match healthR with
    | .error _ => (d1, ["/api/detector/status", "/api/health"])
    | .ok health =>
      let d2 := updateStatusDot "camera-status" (health.camera == "ok") d1
      match ledR with
      | .error _ => (d2, ["/api/detector/status", "/api/health", "/api/led/status"])
      | .ok led =>
        let d3 := updateStatusDot "led-status" led.ok d2
        let d4 := updateStatusDot "setkomet-status" led.ok d3
        match nmR with
        | .error _ =>
          (d4, ["/api/detector/status", "/api/health", "/api/led/status", "/api/nm/status"])
        | .ok nm =>
          (updateNetworkStatus nm d4,
           ["/api/detector/status", "/api/health", "/api/led/status", "/api/nm/status"])

/-! ## GalleryController (lines 386-469) -/

/-- One entry of `/api/gallery/index`. -/
structure GFile where
  file : String
  ts : Int
deriving DecidableEq, Repr

/-- The `/api/gallery/index?n&offset` body. -/
structure GalleryIndexResponse where
  files : List GFile
  total : Nat
deriving DecidableEq, Repr

/-- What `#gallery-container` holds: rendered items, or one of the two
placeholder messages. -/
inductive GalleryPiece
  | item (file : String) (ts : Int)
  | emptyMsg
  | errorMsg
deriving DecidableEq, Repr

/-- `GalleryController` state: the pagination cursor plus the DOM it drives. -/
structure GalleryState where
  currentOffset : Nat
  container : List GalleryPiece
  /-- `#load-more-btn` not `display:none` -/
  loadMoreVisible : Bool
  loadMoreDisabled : Bool
  loadingHidden : Bool
deriving DecidableEq, Repr

/-- `createGalleryItem` over a file list (lines 417-427, 444). -/
def renderItems (files : List GFile) : List GalleryPiece :=
  files.map (fun f => .item f.file f.ts)

/-- `itemsPerPage` (line 389). -/
def itemsPerPage : Nat := 60

/-- `loadGallery(n, offset)` (lines 429-469) with the settled fetch+parse
result: show the loading indicator and disable the button; on data with a
nonempty file list replace (offset 0) or append the rendered items, advance
`currentOffset` by the count returned and hide the button once the total is
covered; on an empty list or an error render a placeholder only at offset 0;
`finally` hides the indicator and re-enables the button. -/
def loadGallery (resp : Except Unit GalleryIndexResponse) (n offset : Nat)
    (s : GalleryState) : GalleryState :=
  let s0 := { s with loadingHidden := false, loadMoreDisabled := true }
  let s1 :=
    match resp with
    | .ok data =>
      if 0 < data.files.length then
        let container :=
          if offset = 0 then renderItems data.files
          else s0.container ++ renderItems data.files
        let s2 := { s0 with container := container
                            currentOffset := offset + data.files.length }
        if data.total ≤ s2.currentOffset then { s2 with loadMoreVisible := false } else s2
      else if offset = 0 then { s0 with container := [.emptyMsg] }
      else s0
    | .error _ =>
      if offset = 0 then { s0 with container := [.errorMsg] } else s0
  { s1 with loadingHidden := true, loadMoreDisabled := false }

/-- A click on `#load-more-btn` (lines 400-405): a hidden (`display:none`) or
disabled button fires no handler; otherwise the handler requests
`loadGallery(itemsPerPage, currentOffset)`, returned here as the `(n, offset)`
pair of the issued request. -/
def clickLoadMore (s : GalleryState) : Option (Nat × Nat) :=
  if s.loadMoreVisible && !s.loadMoreDisabled then some (itemsPerPage, s.currentOffset)
  else none

/-! ## SettingsController (lines 580-632) -/

/-- A settled `fetch` of the settings code paths: the HTTP success flag
`Response.ok` plus the parsed JSON body. -/
structure HttpResponse where
  ok : Bool
  body : JsonResult
deriving DecidableEq, Repr

/-- What one run of `saveDetectorSettings` leaves behind. -/
structure DetectorSaveResult where
  /-- whether the `/api/detector/restart` POST was issued -/
  restartRequested : Bool
  toast : Toast
  /-- the submit button's loading state after `finally` -/
  submitLoading : Bool
deriving DecidableEq, Repr

/-- `saveDetectorSettings` (lines 580-632) with the settled results of its two
fetches (`Except.error` = the fetch or its `json()` parse threw, caught by the
`catch`).  Success of each step is judged by the HTTP flag `Response.ok`,
never by the JSON body's `ok` field: save not HTTP-ok stops before the
restart; restart not HTTP-ok yields the combined partial-success toast; both
HTTP-ok yields the success toast. -/
def saveDetectorSettings (settingsFetch restartFetch : Except Unit HttpResponse) :
    DetectorSaveResult :=
  match settingsFetch with
  | .error _ =>
    { restartRequested := false
      toast := .error "Ошибка сохранения настроек детектора"
      submitLoading := false }
  | .ok settingsResponse =>
    if !settingsResponse.ok then
      { restartRequested := false
        toast := .error ("Ошибка сохранения: " ++ jsInterp settingsResponse.body.error)
        submitLoading := false }
    else
      match restartFetch with
      | .error _ =>
        { restartRequested := true
          toast := .error "Ошибка сохранения настроек детектора"
          submitLoading := false }
      | .ok restartResponse =>
        if restartResponse.ok then
          { restartRequested := true
            toast := .success "Настройки детектора сохранены и сервис перезапущен"
            submitLoading := false }
        else
          { restartRequested := true
            toast := .error ("Настройки сохранены, но ошибка перезапуска: "
                              ++ jsInterp restartResponse.body.error)
            submitLoading := false }

/-! ## Helper lemmas for the reconnect throttle -/

/-- An accepted reconnect happens at least 5000 ms after the recorded
last-reconnect time. -/
lemma acceptedReconnect_lb (t : Int) (e : StreamEvent) (s : StreamState)
    (h : isAcceptedReconnect t e s = true) : s.lastReconnectAt + 5000 ≤ t := by
  cases e <;>
    simp only [isAcceptedReconnect, reconnectAccepted, Bool.and_eq_true,
      decide_eq_true_eq] at h
  · omega
  · exact absurd h (by simp)
  · exact absurd h (by simp)
  · exact absurd h (by simp)
  · exact absurd h (by simp)
  · omega
  · omega

/-- An accepted `reconnectStream` records its invocation time. -/
lemma reconnectStream_last (t : Int) (s : StreamState) (h : 5000 ≤ t - s.lastReconnectAt) :
    (reconnectStream t s).lastReconnectAt = t := by
  unfold reconnectStream
  rw [if_neg (by omega)]

/-- A throttled `reconnectStream` is the identity. -/
lemma reconnectStream_noop (t : Int) (s : StreamState) (h : t - s.lastReconnectAt < 5000) :
    reconnectStream t s = s := by
  unfold reconnectStream
  rw [if_pos h]

/-- `hideFallback` never touches the throttle clock. -/
lemma hideFallback_last (t : Int) (s : StreamState) :
    (hideFallback t s).lastReconnectAt = s.lastReconnectAt := by
  unfold hideFallback
  split <;> rfl

/-- `showFallback` never touches the throttle clock. -/
lemma showFallback_last (s : StreamState) :
    (showFallback s).lastReconnectAt = s.lastReconnectAt := by
  unfold showFallback
  split <;> rfl

/-- A step performing an accepted reconnect sets the clock to the step time. -/
lemma stepS_last_accepted (t : Int) (e : StreamEvent) (s : StreamState)
    (h : isAcceptedReconnect t e s = true) : (stepS t e s).lastReconnectAt = t := by
  cases e with
  | reconnect =>
    simp only [isAcceptedReconnect, reconnectAccepted, decide_eq_true_eq] at h
    simpa [stepS] using reconnectStream_last t s h
  | errReconnect =>
    simp only [isAcceptedReconnect, reconnectAccepted, Bool.and_eq_true,
      decide_eq_true_eq] at h
    simp only [stepS, errReconnectFire, h.1, if_true]
    exact reconnectStream_last t _ h.2
  | view v =>
    simp only [isAcceptedReconnect, reconnectAccepted, Bool.and_eq_true,
      decide_eq_true_eq] at h
    simp only [stepS, showView, h.1, if_true]
    rw [hideFallback_last]
    exact reconnectStream_last t s h.2
  | loadEvt => simp [isAcceptedReconnect] at h
  | errorEvt => simp [isAcceptedReconnect] at h
  | watchdog => simp [isAcceptedReconnect] at h
  | hideDone => simp [isAcceptedReconnect] at h

/-- A step not performing an accepted reconnect leaves the clock unchanged. -/
lemma stepS_last_not_accepted (t : Int) (e : StreamEvent) (s : StreamState)
    (h : isAcceptedReconnect t e s = false) :
    (stepS t e s).lastReconnectAt = s.lastReconnectAt := by
  cases e with
  | reconnect =>
    simp only [isAcceptedReconnect, reconnectAccepted, decide_eq_false_iff_not] at h
    rw [stepS, reconnectStream_noop t s (by omega)]
  | loadEvt =>
    show (onLoad t s).lastReconnectAt = _
    unfold onLoad
    rw [hideFallback_last]
  | errorEvt =>
    show (onError t s).lastReconnectAt = _
    unfold onError
    rw [showFallback_last]
  | watchdog =>
    show (watchdogFire t s).lastReconnectAt = _
    unfold watchdogFire
    split
    · split
      · rfl
      · rw [showFallback_last]
    · rfl
  | hideDone =>
    show (hideFallbackDone t s).lastReconnectAt = _
    unfold hideFallbackDone
    split <;> rfl
  | errReconnect =>
    show (errReconnectFire t s).lastReconnectAt = _
    unfold errReconnectFire
    split
    · rename_i hc
      simp only [isAcceptedReconnect, reconnectAccepted, hc, Bool.true_and,
        decide_eq_false_iff_not] at h
      rw [reconnectStream_noop t { s with pendingReconnects := s.pendingReconnects.erase t }
            (show t - s.lastReconnectAt < 5000 by omega)]
    · rfl
  | view v =>
    show (showView t v s).lastReconnectAt = _
    unfold showView
    split
    · rename_i hv
      simp only [isAcceptedReconnect, reconnectAccepted, hv, Bool.true_and,
        decide_eq_false_iff_not] at h
      rw [hideFallback_last, reconnectStream_noop t s (by omega)]
    · rfl

/-- Along any trace the accepted-reconnect times start at least 5000 ms after
the current clock and are pairwise at least 5000 ms apart. -/
lemma acceptedTimes_spec (tr : List (Int × StreamEvent)) :
    ∀ s : StreamState,
      (∀ u ∈ acceptedTimes tr s, s.lastReconnectAt + 5000 ≤ u) ∧
      List.Pairwise (fun a b : Int => a + 5000 ≤ b) (acceptedTimes tr s) := by
  induction tr with
  | nil => intro s; simp [acceptedTimes]
  | cons p rest ih =>
    intro s
    obtain ⟨t, e⟩ := p
    by_cases h : isAcceptedReconnect t e s = true
    · have hstep := stepS_last_accepted t e s h
      have hlb := acceptedReconnect_lb t e s h
      obtain ⟨ihlb, ihpw⟩ := ih (stepS t e s)
      rw [hstep] at ihlb
      constructor
      · intro u hu
        simp only [acceptedTimes, h, if_true, List.mem_cons] at hu
        rcases hu with rfl | hu
        · exact hlb
        · have := ihlb u hu
          omega
      · simp only [acceptedTimes, h, if_true]
        exact List.Pairwise.cons (fun u hu => ihlb u hu) ihpw
    · have hstep := stepS_last_not_accepted t e s (by simpa using h)
      obtain ⟨ihlb, ihpw⟩ := ih (stepS t e s)
      rw [hstep] at ihlb
      constructor
      · intro u hu
        simp only [acceptedTimes, h, if_false] at hu
        exact ihlb u hu
      · simpa only [acceptedTimes, h, if_false] using ihpw

/-! ## Helper lemmas for the control-action lock -/

/-- One lock step preserves the invariant: at most one POST is in flight, and
the lock is held exactly while one is. -/
lemma lockStep_inv (e : LockEvent) (s : LockState)
    (h1 : s.postsInFlight ≤ 1)
    (h2 : s.isRequestInProgress = true ↔ s.postsInFlight = 1) :
    (lockStep e s).1.postsInFlight ≤ 1 ∧
      ((lockStep e s).1.isRequestInProgress = true ↔ (lockStep e s).1.postsInFlight = 1) := by
  cases e with
  | click a =>
    by_cases hl : s.isRequestInProgress = true
    · have he : lockStep (.click a) s = (s, none) := by simp [lockStep, hl]
      rw [he]
      exact ⟨h1, h2⟩
    · have hz : s.postsInFlight = 0 := by
        by_contra hnz
        exact hl (h2.mpr (by omega))
      have he : lockStep (.click a) s =
          ({ isRequestInProgress := true, postsInFlight := s.postsInFlight + 1 },
           some (actionEndpoint a)) := by
        simp [lockStep, hl]
      rw [he]
      refine ⟨by dsimp; omega, ?_⟩
      simp [hz]
  | settle =>
    by_cases hz : s.postsInFlight = 0
    · have he : lockStep .settle s = (s, none) := by simp [lockStep, hz]
      rw [he]
      exact ⟨h1, h2⟩
    · have he : lockStep .settle s =
          ({ isRequestInProgress := false, postsInFlight := s.postsInFlight - 1 }, none) := by
        simp [lockStep, hz]
      rw [he]
      refine ⟨by dsimp; omega, ?_⟩
      simp only [Bool.false_eq_true, false_iff]
      omega

/-- Running any event sequence from an invariant state keeps at most one POST
in flight. -/
lemma lockRun_inv (es : List LockEvent) :
    ∀ s : LockState, s.postsInFlight ≤ 1 →
      (s.isRequestInProgress = true ↔ s.postsInFlight = 1) →
      (lockRun es s).postsInFlight ≤ 1 := by
  induction es with
  | nil => intro s h1 _; simpa [lockRun] using h1
  | cons e rest ih =>
    intro s h1 h2
    have h := lockStep_inv e s h1 h2
    simpa [lockRun] using ih _ h.1 h.2

/-! ## Claim theorems -/

/-- C1: for every sequence of rapid clicks on the control actions (detector
start/stop/restart and LED test), at most one control POST is in flight at a
time, and while the lock is held a further click on `controlDetector`/`testLED`
returns immediately without issuing a request, changing state, or queuing
anything. -/
theorem c1_request_lock (es : List LockEvent) (s : LockState) (a : PanelAction) :
    (lockRun es lockInit).postsInFlight ≤ 1 ∧
      (s.isRequestInProgress = true → lockStep (.click a) s = (s, none)) := by
  constructor
  · exact lockRun_inv es lockInit (by simp [lockInit]) (by simp [lockInit])
  · intro h
    simp [lockStep, h]

/-- Witness for C1 at a concrete click sequence and a concrete locked state. -/
theorem c1_request_lock_witness :
    (lockRun [LockEvent.click .start, LockEvent.click .stop, LockEvent.settle]
        lockInit).postsInFlight ≤ 1 ∧
      lockStep (.click .stop) { isRequestInProgress := true, postsInFlight := 1 } =
        ({ isRequestInProgress := true, postsInFlight := 1 }, none) := by
  have h := c1_request_lock [LockEvent.click .start, LockEvent.click .stop, LockEvent.settle]
    { isRequestInProgress := true, postsInFlight := 1 } .stop
  exact ⟨h.1, h.2 rfl⟩

/-- C4: a `reconnectStream` invocation within 5000 ms of the previously
accepted reconnect (measured from `lastReconnectAt`) is a complete no-op, and
along any event trace the accepted reconnects are pairwise at least 5000 ms
apart. -/
theorem c4_reconnect_throttle (s : StreamState) (t : Int)
    (tr : List (Int × StreamEvent)) :
    (t - s.lastReconnectAt < 5000 → reconnectStream t s = s) ∧
      List.Pairwise (fun a b : Int => a + 5000 ≤ b) (acceptedTimes tr s) := by
  constructor
  · intro h
    exact reconnectStream_noop t s h
  · exact (acceptedTimes_spec tr s).2

/-- Witness for C4: a throttled call 2000 ms after an accepted reconnect is the
identity, and on a concrete trace the accepted times are 5000 ms apart. -/
theorem c4_reconnect_throttle_witness :
    reconnectStream 3000 initialStreamState = initialStreamState ∧
      List.Pairwise (fun a b : Int => a + 5000 ≤ b)
        (acceptedTimes [(6000, .reconnect), (7000, .reconnect), (12000, .reconnect)]
          initialStreamState) := by
  have h := c4_reconnect_throttle initialStreamState 3000
    [(6000, .reconnect), (7000, .reconnect), (12000, .reconnect)]
  exact ⟨h.1 (by decide), h.2⟩

/-- C5: an accepted reconnect arms the 1200 ms watchdog with `firstFrameOk`
reset; if the watchdog fires with no frame received the fallback becomes
visible, and showing it again while visible changes nothing (it becomes
visible exactly once); after a subsequent load event while the fallback is
visible, the 200 ms hide timeout is scheduled and its firing hides the
fallback. -/
theorem c5_watchdog_fallback (s : StreamState) (t tw : Int) :
    (5000 ≤ t - s.lastReconnectAt →
      (reconnectStream t s).fallbackTimer = some (t + 1200) ∧
        (reconnectStream t s).firstFrameOk = false) ∧
    (s.fallbackTimer = some tw → s.firstFrameOk = false →
      (watchdogFire tw s).isFallbackVisible = true ∧
        (s.isFallbackVisible = false → (watchdogFire tw s).fallbackDomHidden = false)) ∧
    (s.isFallbackVisible = true → showFallback s = s) ∧
    (s.isFallbackVisible = true →
      (onLoad t s).hideTimers = s.hideTimers ++ [t + 200] ∧
        (hideFallbackDone (t + 200) (onLoad t s)).fallbackDomHidden = true ∧
        (hideFallbackDone (t + 200) (onLoad t s)).isFallbackVisible = false) := by
  refine ⟨?_, ?_, ?_, ?_⟩
  · intro h
    unfold reconnectStream
    rw [if_neg (by omega)]
    exact ⟨rfl, rfl⟩
  · intro ht hf
    unfold watchdogFire
    rw [if_pos ht, if_neg (by simp [hf])]
    unfold showFallback
    by_cases hv : s.isFallbackVisible = true
    · rw [if_pos (show ({ s with fallbackTimer := none } : StreamState).isFallbackVisible = true from hv)]
      exact ⟨hv, fun hnv => absurd hv (by simp [hnv])⟩
    · rw [if_neg (show ¬ ({ s with fallbackTimer := none } : StreamState).isFallbackVisible = true from hv)]
      exact ⟨rfl, fun _ => rfl⟩
  · intro hv
    unfold showFallback
    rw [if_pos hv]
  · intro hv
    unfold onLoad hideFallback
    rw [if_pos (show ({ s with firstFrameOk := true } : StreamState).isFallbackVisible = true from hv)]
    refine ⟨rfl, ?_, ?_⟩ <;>
    · unfold hideFallbackDone
      rw [if_pos (by simp)]

/-- Witness for C5 at a concrete armed-watchdog state. -/
theorem c5_watchdog_fallback_witness :
    (reconnectStream 6000 ⟨false, true, false, some 1200, [], 0, "", []⟩).fallbackTimer =
        some 7200 ∧
      (watchdogFire 1200 ⟨false, true, false, some 1200, [], 0, "", []⟩).isFallbackVisible =
        true ∧
      showFallback ⟨false, true, false, some 1200, [], 0, "", []⟩ =
        ⟨false, true, false, some 1200, [], 0, "", []⟩ ∧
      (hideFallbackDone 6200
          (onLoad 6000 ⟨false, true, false, some 1200, [], 0, "", []⟩)).isFallbackVisible =
        false := by
  have h := c5_watchdog_fallback ⟨false, true, false, some 1200, [], 0, "", []⟩ 6000 1200
  exact ⟨(h.1 (by decide)).1, (h.2.1 rfl rfl).1, h.2.2.1 rfl, (h.2.2.2 rfl).2.2⟩

/-- C8 counterexample: after an accepted reconnect at 10000 ms, switching away
at 11000 ms and back to the stream view at 12000 ms leaves the video source
empty — the throttled reconnect sets no new stream source, contradicting the
claim that switching back always sets one. -/
theorem c8_counterexample :
    (showView 12000 "stream"
        (showView 11000 "photos" (reconnectStream 10000 initialStreamState))).overlaySrc =
      "" ∧
    (showView 12000 "stream"
        (showView 11000 "photos" (reconnectStream 10000 initialStreamState))).overlaySrc ≠
      "/overlay.mjpg?t=" ++ toString (12000 : Int) := by
  exact ⟨rfl, by decide⟩

/-- C8 (amended): switching away from the stream view always clears the video
source; switching back runs `reconnectStream` under the 5000 ms throttle — a
new cache-busted source is set (with `firstFrameOk` reset) only when at least
5000 ms have passed since the last accepted reconnect, otherwise the source is
left unchanged — and `hideFallback` is invoked, which begins the 200 ms
fade-out whenever the fallback is visible. -/
theorem c8_view_switch (s : StreamState) (t : Int) (v : String) :
    (v ≠ "stream" → (showView t v s).overlaySrc = "") ∧
    (5000 ≤ t - s.lastReconnectAt →
      (showView t "stream" s).overlaySrc = "/overlay.mjpg?t=" ++ toString t ∧
        (showView t "stream" s).firstFrameOk = false) ∧
    (t - s.lastReconnectAt < 5000 →
      (showView t "stream" s).overlaySrc = s.overlaySrc) ∧
    (s.isFallbackVisible = true →
      (showView t "stream" s).hideTimers = s.hideTimers ++ [t + 200]) := by
  refine ⟨?_, ?_, ?_, ?_⟩
  · intro hv
    unfold showView
    rw [if_neg (by simpa using hv)]
  · intro ht
    have hr : reconnectStream t s =
        { s with lastReconnectAt := t
                 firstFrameOk := false
                 overlaySrc := "/overlay.mjpg?t=" ++ toString t
                 fallbackTimer := some (t + 1200) } := by
      unfold reconnectStream
      rw [if_neg (by omega)]
    unfold showView hideFallback
    rw [if_pos (by rfl), hr]
    split <;> exact ⟨rfl, rfl⟩
  · intro ht
    unfold showView
    rw [if_pos (by rfl), reconnectStream_noop t s ht]
    unfold hideFallback
    split <;> rfl
  · intro hv
    have hvr : (reconnectStream t s).isFallbackVisible = true := by
      unfold reconnectStream
      split <;> exact hv
    have hht : (reconnectStream t s).hideTimers = s.hideTimers := by
      unfold reconnectStream
      split <;> rfl
    unfold showView
    rw [if_pos (by rfl)]
    unfold hideFallback
    rw [if_pos hvr]
    show (reconnectStream t s).hideTimers ++ [t + 200] = s.hideTimers ++ [t + 200]
    rw [hht]

/-- Witness for C8 (amended) at concrete states on both sides of the throttle. -/
theorem c8_view_switch_witness :
    (showView 11000 "photos" ⟨false, false, true, none, [], 10000, "src", []⟩).overlaySrc =
        "" ∧
      (showView 20000 "stream" ⟨false, false, true, none, [], 10000, "src", []⟩).overlaySrc =
        "/overlay.mjpg?t=" ++ toString (20000 : Int) ∧
      (showView 12000 "stream" ⟨false, false, true, none, [], 10000, "src", []⟩).overlaySrc =
        "src" ∧
      (showView 12000 "stream" ⟨false, true, false, none, [], 10000, "src", []⟩).hideTimers =
        [12200] := by
  refine ⟨?_, ?_, ?_, ?_⟩
  · exact (c8_view_switch ⟨false, false, true, none, [], 10000, "src", []⟩ 11000 "photos").1
      (by decide)
  · exact ((c8_view_switch ⟨false, false, true, none, [], 10000, "src", []⟩ 20000 "x").2.1
      (by decide)).1
  · exact (c8_view_switch ⟨false, false, true, none, [], 10000, "src", []⟩ 12000 "x").2.2.1
      (by decide)
  · exact (c8_view_switch ⟨false, true, false, none, [], 10000, "src", []⟩ 12000 "x").2.2.2
      rfl

/-- C6: whichever way a control action's request settles — parsed JSON with
ok true or false, an abort after the 7000 ms bound, or a network/parse error —
the button ends re-enabled with its original label and the lock released; in
particular a request lasting beyond 7000 ms aborts and shows the timeout
notification. -/
theorem c6_control_cleanup (action : String) (st : CtrlUiState) (d : Int)
    (net : NetResult) (hlock : st.isRequestInProgress = false) :
    (controlDetector action (fetchWithTimeout 7000 d net) st).buttonText = st.buttonText ∧
    (controlDetector action (fetchWithTimeout 7000 d net) st).buttonDisabled = false ∧
    (controlDetector action (fetchWithTimeout 7000 d net) st).btnLoading = false ∧
    (controlDetector action (fetchWithTimeout 7000 d net) st).isRequestInProgress = false ∧
    (7000 < d → (controlDetector action (fetchWithTimeout 7000 d net) st).toast =
      some (.error "Timeout: Request took too long")) := by
  have hne : ¬ st.isRequestInProgress = true := by simp [hlock]
  refine ⟨?_, ?_, ?_, ?_, ?_⟩
  · unfold controlDetector
    rw [if_neg hne]
  · unfold controlDetector
    rw [if_neg hne]
  · unfold controlDetector
    rw [if_neg hne]
  · unfold controlDetector
    rw [if_neg hne]
  · intro hdd
    have he : fetchWithTimeout 7000 d net = .abortError := by
      unfold fetchWithTimeout
      rw [if_pos hdd]
    rw [he]
    unfold controlDetector
    rw [if_neg hne]

/-- Witness for C6: a concrete 8000 ms request aborts, shows the timeout toast
and restores button and lock. -/
theorem c6_control_cleanup_witness :
    (controlDetector "start" (fetchWithTimeout 7000 8000 (.netError "fail"))
        ⟨"Запустить", false, false, false, none, none⟩).buttonText = "Запустить" ∧
      (controlDetector "start" (fetchWithTimeout 7000 8000 (.netError "fail"))
        ⟨"Запустить", false, false, false, none, none⟩).isRequestInProgress = false ∧
      (controlDetector "start" (fetchWithTimeout 7000 8000 (.netError "fail"))
        ⟨"Запустить", false, false, false, none, none⟩).toast =
        some (.error "Timeout: Request took too long") := by
  have h := c6_control_cleanup "start" ⟨"Запустить", false, false, false, none, none⟩
    8000 (.netError "fail") rfl
  exact ⟨h.1, h.2.2.2.1, h.2.2.2.2 (by decide)⟩

/-- C2 counterexample: in a tick where the detector-status fetch fails while
the health, LED and network responses would all be available, the code catches
the failure but issues none of the other three fetches and updates none of the
other indicators — refuting the claim that the four fetches are independent
within a tick. -/
theorem c2_counterexample :
    updateStatus ⟨"status-dot bad", "status-dot bad", "status-dot bad", "status-dot bad",
        "—", "—", "—", "—"⟩
      (.error ()) (.ok ⟨"active"⟩) (.ok ⟨true⟩)
      (.ok ⟨some "wifi", some "wlan0", some "dd5ka", true⟩) =
      (⟨"status-dot bad", "status-dot bad", "status-dot bad", "status-dot bad",
        "—", "—", "—", "—"⟩, ["/api/detector/status"]) ∧
    "/api/health" ∉ (updateStatus ⟨"status-dot bad", "status-dot bad", "status-dot bad",
        "status-dot bad", "—", "—", "—", "—"⟩
      (.error ()) (.ok ⟨"active"⟩) (.ok ⟨true⟩)
      (.ok ⟨some "wifi", some "wlan0", some "dd5ka", true⟩)).2 := by
  exact ⟨rfl, by decide⟩

/-- C2 (amended): the four status fetches of a tick run sequentially inside one
try/catch, so the tick always completes normally (the loop continues), but the
first failing fetch ends the tick: the fetches after it are not issued and only
the indicators of the fetches completed before the failure are updated — the
remaining indicators keep their previous values. -/
theorem c2_sequential_tick (d : StatusDom)
    (detR : Except Unit DetectorStatus) (healthR : Except Unit HealthStatus)
    (ledR : Except Unit LedStatus) (nmR : Except Unit NmStatus) :
    (detR = .error () →
      updateStatus d detR healthR ledR nmR = (d, ["/api/detector/status"])) ∧
    (∀ det, detR = .ok det → healthR = .error () →
      updateStatus d detR healthR ledR nmR =
        (updateStatusDot "detector-status" (det.active_state == "active") d,
         ["/api/detector/status", "/api/health"])) ∧
    (∀ det health, detR = .ok det → healthR = .ok health → ledR = .error () →
      updateStatus d detR healthR ledR nmR =
        (updateStatusDot "camera-status" (health.camera == "ok")
          (updateStatusDot "detector-status" (det.active_state == "active") d),
         ["/api/detector/status", "/api/health", "/api/led/status"])) ∧
    (∀ det health led, detR = .ok det → healthR = .ok health → ledR = .ok led →
      nmR = .error () →
      updateStatus d detR healthR ledR nmR =
        (updateStatusDot "setkomet-status" led.ok (updateStatusDot "led-status" led.ok
          (updateStatusDot "camera-status" (health.camera == "ok")
            (updateStatusDot "detector-status" (det.active_state == "active") d))),
         ["/api/detector/status", "/api/health", "/api/led/status", "/api/nm/status"])) ∧
    (∀ det health led nm, detR = .ok det → healthR = .ok health → ledR = .ok led →
      nmR = .ok nm →
      updateStatus d detR healthR ledR nmR =
        (updateNetworkStatus nm (updateStatusDot "setkomet-status" led.ok
          (updateStatusDot "led-status" led.ok
            (updateStatusDot "camera-status" (health.camera == "ok")
              (updateStatusDot "detector-status" (det.active_state == "active") d)))),
         ["/api/detector/status", "/api/health", "/api/led/status", "/api/nm/status"])) := by
  refine ⟨?_, ?_, ?_, ?_, ?_⟩ <;> intros <;> subst_vars <;> rfl

/-- Witness for C2 (amended) at a concrete failing-first-fetch tick. -/
theorem c2_sequential_tick_witness :
    updateStatus ⟨"a", "b", "c", "d", "e", "f", "g", "h"⟩
        (.error ()) (.ok ⟨"active"⟩) (.ok ⟨true⟩) (.ok ⟨none, none, none, false⟩) =
      (⟨"a", "b", "c", "d", "e", "f", "g", "h"⟩, ["/api/detector/status"]) :=
  (c2_sequential_tick ⟨"a", "b", "c", "d", "e", "f", "g", "h"⟩
    (.error ()) (.ok ⟨"active"⟩) (.ok ⟨true⟩) (.ok ⟨none, none, none, false⟩)).1 rfl

/-- C10: after a fully successful status tick the setkomet dot and the LED dot
carry the same class, both computed from the same `ledStatus.ok` field. -/
theorem c10_led_setkomet_agree (d : StatusDom) (det : DetectorStatus)
    (health : HealthStatus) (led : LedStatus) (nm : NmStatus) :
    ((updateStatus d (.ok det) (.ok health) (.ok led) (.ok nm)).1).ledDot =
        ((updateStatus d (.ok det) (.ok health) (.ok led) (.ok nm)).1).setkometDot ∧
      ((updateStatus d (.ok det) (.ok health) (.ok led) (.ok nm)).1).ledDot =
        "status-dot " ++ (if led.ok then "ok" else "bad") := by
  exact ⟨rfl, rfl⟩

/-- C3 counterexample: the detector-settings save succeeds and the restart
request comes back HTTP-ok with body ok-false and error busy, yet the user sees
the plain success toast, not the claimed combined saved-but-restart-failed
notification — the code branches on the HTTP flag, never on the JSON ok
field. -/
theorem c3_counterexample :
    (saveDetectorSettings (.ok ⟨true, ⟨true, none⟩⟩)
        (.ok ⟨true, ⟨false, some "busy"⟩⟩)).toast =
      .success "Настройки детектора сохранены и сервис перезапущен" ∧
    (saveDetectorSettings (.ok ⟨true, ⟨true, none⟩⟩)
        (.ok ⟨true, ⟨false, some "busy"⟩⟩)).toast ≠
      .error "Настройки сохранены, но ошибка перезапуска: busy" := by
  exact ⟨rfl, by decide⟩

/-- C3 (amended): the three save outcomes are keyed on the HTTP success flag
(`Response.ok`) of each response, not on the JSON body's ok field: a save with
a failed HTTP status (or a thrown fetch) shows an error toast and issues no
restart (the result does not even depend on the would-be restart response); a
save with an ok HTTP status issues the restart; a restart with a failed HTTP
status yields the single combined notification naming the restart error; both
HTTP-ok yields the single success notification regardless of the JSON ok
field; the submit button is always restored. -/
theorem c3_http_flag_outcomes (settingsFetch restartFetch : Except Unit HttpResponse) :
    (settingsFetch = .error () →
      (saveDetectorSettings settingsFetch restartFetch).restartRequested = false ∧
        (saveDetectorSettings settingsFetch restartFetch).toast =
          .error "Ошибка сохранения настроек детектора" ∧
        ∀ other, saveDetectorSettings settingsFetch restartFetch =
          saveDetectorSettings settingsFetch other) ∧
    (∀ sv, settingsFetch = .ok sv → sv.ok = false →
      (saveDetectorSettings settingsFetch restartFetch).restartRequested = false ∧
        (saveDetectorSettings settingsFetch restartFetch).toast =
          .error ("Ошибка сохранения: " ++ jsInterp sv.body.error) ∧
        ∀ other, saveDetectorSettings settingsFetch restartFetch =
          saveDetectorSettings settingsFetch other) ∧
    (∀ sv, settingsFetch = .ok sv → sv.ok = true →
      (saveDetectorSettings settingsFetch restartFetch).restartRequested = true) ∧
    (∀ sv rr, settingsFetch = .ok sv → sv.ok = true → restartFetch = .ok rr →
      rr.ok = false →
      (saveDetectorSettings settingsFetch restartFetch).toast =
        .error ("Настройки сохранены, но ошибка перезапуска: " ++ jsInterp rr.body.error)) ∧
    (∀ sv rr, settingsFetch = .ok sv → sv.ok = true → restartFetch = .ok rr →
      rr.ok = true →
      (saveDetectorSettings settingsFetch restartFetch).toast =
        .success "Настройки детектора сохранены и сервис перезапущен") ∧
    (saveDetectorSettings settingsFetch restartFetch).submitLoading = false := by
  refine ⟨?_, ?_, ?_, ?_, ?_, ?_⟩
  · rintro rfl
    exact ⟨rfl, rfl, fun other => rfl⟩
  · rintro sv rfl hok
    refine ⟨?_, ?_, ?_⟩ <;>
      simp [saveDetectorSettings, hok]
  · rintro sv rfl hok
    cases restartFetch with
    | error e => simp [saveDetectorSettings, hok]
    | ok rr =>
      by_cases hrr : rr.ok = true <;> simp [saveDetectorSettings, hok, hrr]
  · rintro sv rr rfl hok rfl hrr
    simp [saveDetectorSettings, hok, hrr]
  · rintro sv rr rfl hok rfl hrr
    simp [saveDetectorSettings, hok, hrr]
  · cases settingsFetch with
    | error e => rfl
    | ok sv =>
      by_cases hok : sv.ok = true
      · cases restartFetch with
        | error e => simp [saveDetectorSettings, hok]
        | ok rr =>
          by_cases hrr : rr.ok = true <;> simp [saveDetectorSettings, hok, hrr]
      · simp [saveDetectorSettings, hok]

/-- Witness for C3 (amended) at a concrete failed save and a concrete
successful save with failing restart. -/
theorem c3_http_flag_outcomes_witness :
    (saveDetectorSettings (.ok ⟨false, ⟨false, some "bad json"⟩⟩)
        (.ok ⟨true, ⟨true, none⟩⟩)).restartRequested = false ∧
      (saveDetectorSettings (.ok ⟨true, ⟨true, none⟩⟩)
        (.ok ⟨false, ⟨false, some "busy"⟩⟩)).toast =
        .error "Настройки сохранены, но ошибка перезапуска: busy" := by
  refine ⟨?_, ?_⟩
  · exact ((c3_http_flag_outcomes (.ok ⟨false, ⟨false, some "bad json"⟩⟩)
      (.ok ⟨true, ⟨true, none⟩⟩)).2.1 ⟨false, ⟨false, some "bad json"⟩⟩ rfl rfl).1
  · exact (c3_http_flag_outcomes (.ok ⟨true, ⟨true, none⟩⟩)
      (.ok ⟨false, ⟨false, some "busy"⟩⟩)).2.2.2.1 ⟨true, ⟨true, none⟩⟩
      ⟨false, ⟨false, some "busy"⟩⟩ rfl rfl rfl rfl

/-- C7: a successful gallery load returning a nonempty list of k files advances
the cursor to the request offset plus k; a successful load returning zero files
(which in the program is only requested at the current cursor) leaves the
cursor at offset plus zero; and as soon as the cursor covers the
server-reported total, the load-more control is hidden and a click on it can
issue no further request. -/
theorem c7_gallery_pagination (s : GalleryState) (files : List GFile)
    (total n offset : Nat) :
    (files ≠ [] →
      (loadGallery (.ok ⟨files, total⟩) n offset s).currentOffset =
        offset + files.length) ∧
    (files = [] → offset = s.currentOffset →
      (loadGallery (.ok ⟨files, total⟩) n offset s).currentOffset =
        offset + files.length) ∧
    (files ≠ [] → total ≤ offset + files.length →
      (loadGallery (.ok ⟨files, total⟩) n offset s).loadMoreVisible = false ∧
        clickLoadMore (loadGallery (.ok ⟨files, total⟩) n offset s) = none) := by
  refine ⟨?_, ?_, ?_⟩
  · intro hne
    have hlen : 0 < files.length := List.length_pos.mpr hne
    unfold loadGallery
    simp only [hlen, if_true]
    split <;> rfl
  · rintro rfl hoff
    unfold loadGallery
    simp only [List.length_nil, Nat.lt_irrefl, if_false]
    split
    · simp [hoff]
    · simp [hoff]
  · intro hne htot
    have hlen : 0 < files.length := List.length_pos.mpr hne
    unfold loadGallery
    simp only [hlen, if_true]
    rw [if_pos (show total ≤ offset + files.length from htot)]
    exact ⟨rfl, by simp [clickLoadMore]⟩

/-- Witness for C7: loading one file at offset 0 with total 1 advances the
cursor to 1, hides the load-more button, and a click issues nothing. -/
theorem c7_gallery_pagination_witness :
    (loadGallery (.ok ⟨[⟨"a.jpg", 10⟩], 1⟩) 60 0
        ⟨0, [], true, false, true⟩).currentOffset = 1 ∧
      (loadGallery (.ok ⟨[⟨"a.jpg", 10⟩], 1⟩) 60 0
        ⟨0, [], true, false, true⟩).loadMoreVisible = false ∧
      clickLoadMore (loadGallery (.ok ⟨[⟨"a.jpg", 10⟩], 1⟩) 60 0
        ⟨0, [], true, false, true⟩) = none := by
  have h := c7_gallery_pagination ⟨0, [], true, false, true⟩ [⟨"a.jpg", 10⟩] 1 60 0
  exact ⟨h.1 (by decide), (h.2.2 (by decide) (by decide)).1, (h.2.2 (by decide) (by decide)).2⟩

/-- C9: a gallery load at a non-zero offset that fails or returns an empty file
list leaves the previously rendered items untouched; the error and empty
placeholders replace the grid only at offset 0; and on every path the loading
indicator ends hidden and the load-more button re-enabled. -/
theorem c9_gallery_frame (s : GalleryState) (n offset total : Nat)
    (hoff : offset ≠ 0) :
    (loadGallery (.error ()) n offset s).container = s.container ∧
    (loadGallery (.ok ⟨[], total⟩) n offset s).container = s.container ∧
    (loadGallery (.error ()) n 0 s).container = [.errorMsg] ∧
    (loadGallery (.ok ⟨[], total⟩) n 0 s).container = [.emptyMsg] ∧
    (∀ resp : Except Unit GalleryIndexResponse,
      (loadGallery resp n offset s).loadingHidden = true ∧
        (loadGallery resp n offset s).loadMoreDisabled = false) := by
  refine ⟨?_, ?_, ?_, ?_, ?_⟩
  · simp [loadGallery, hoff]
  · simp [loadGallery, hoff]
  · rfl
  · rfl
  · intro resp
    exact ⟨rfl, rfl⟩

/-- Witness for C9: a failed load and an empty load at offset 60 keep a
one-item grid intact, with the indicator hidden and the button enabled. -/
theorem c9_gallery_frame_witness :
    (loadGallery (.error ()) 60 60 ⟨60, [.item "a.jpg" 10], true, false, true⟩).container =
        [.item "a.jpg" 10] ∧
      (loadGallery (.ok ⟨[], 1⟩) 60 60
        ⟨60, [.item "a.jpg" 10], true, false, true⟩).container = [.item "a.jpg" 10] ∧
      (loadGallery (.error ()) 60 60
        ⟨60, [.item "a.jpg" 10], true, false, true⟩).loadingHidden = true := by
  have h := c9_gallery_frame ⟨60, [.item "a.jpg" 10], true, false, true⟩ 60 60 1
    (by decide)
  exact ⟨h.1, h.2.1, (h.2.2.2.2 (.error ())).1⟩
